import Mathlib

/-! gluci-clock: LCD initialisation (`lcd_16x2.h`) and configuration constants

A shallow embedding of the header `lcd_16x2.h` (and of the one constant of
`secrets_template.h` that it shares): the compiled-in constants, the seven
arrow glyph tables and the procedure `initialize_LCD`.

`initialize_LCD` is straight-line code that calls into the Arduino `Serial`,
ESP32 `ledc` and `LiquidCrystal` libraries.  The hardware those calls act on is
an explicit state `Display`; every call updates the part of the state it writes
and appends itself to a trace of issued calls.
-/

namespace GluciClock

/-! ## Constants of `lcd_16x2.h` -/

/-- Channel for PWM (0-15): `const int pwmChannel = 0;` -/
def pwmChannel : Int := 0

/-- PWM frequency 1 KHz: `const int frequency = 1000;` -/
def frequency : Int := 1000

/-- PWM resolution 8 bits, 256 possible values: `const int resolution = 8;` -/
def resolution : Int := 8

/-- Contrast pin: `const int pwmPin = 16;` -/
def pwmPin : Int := 16

/-- Contrast duty, 0-255: `const int contrast = 75;` -/
def contrast : Int := 75

/-- Register-select pin: `const int rs = 22`. -/
def rs : Int := 22

/-- Enable pin: `en = 21`. -/
def en : Int := 21

/-- Data pin: `d4 = 5`. -/
def d4 : Int := 5

/-- Data pin: `d5 = 18`. -/
def d5 : Int := 18

/-- Data pin: `d6 = 23`. -/
def d6 : Int := 23

/-- Data pin: `d7 = 19`. -/
def d7 : Int := 19

/-- Contrast level for LCD (0-255) as `secrets_template.h` declares it:
`const int contrast = 75;`. -/
def secrets_template.contrast : Int := 75

/-- The six-argument (4-bit mode) `LiquidCrystal` constructor
`LiquidCrystal(rs, enable, d0, d1, d2, d3)`: the object remembers its pins, in
the order of the constructor's parameters.  In 4-bit mode the four data
arguments drive the controller's lines DB4..DB7. -/
structure LiquidCrystal where
  rs_pin : Int
  enable_pin : Int
  data0 : Int
  data1 : Int
  data2 : Int
  data3 : Int
  deriving DecidableEq, Repr

/-- The global driver object: `LiquidCrystal lcd(rs, en, d4, d5, d6, d7);` -/
def lcd : LiquidCrystal := LiquidCrystal.mk rs en d4 d5 d6 d7

/-! ## The wiring table of the header's comment -/

/-- The sixteen pins of the LCD module, as the wiring comment lists them. -/
inductive LcdPin where
  | gnd | vdd | vo | rs | rw | en
  | db0 | db1 | db2 | db3 | db4 | db5 | db6 | db7
  | backlightPlus | backlightGnd
  deriving DecidableEq, Repr

/-- What an LCD pin is connected to on the ESP32 side. -/
inductive Conn where
  | ground
  | fiveVolt
  | esp (pin : Int)
  | unused
  | optional
  deriving DecidableEq, Repr

/-- The LCD pins in the order of the wiring comment (pins 1 to 16). -/
def LcdPin.all : List LcdPin :=
  [.gnd, .vdd, .vo, .rs, .rw, .en, .db0, .db1, .db2, .db3, .db4, .db5, .db6, .db7,
   .backlightPlus, .backlightGnd]

/-- The wiring comment of `lcd_16x2.h`, line by line. -/
def wiring : LcdPin → Conn
  | .gnd => .ground            --  1 GND supply             - GND
  | .vdd => .fiveVolt          --  2 VDD 5v                 - 5V
  | .vo => .esp 16             --  3 Vo contrast adjustment - 16 (PWM)
  | .rs => .esp 22             --  4 RS register select     - 22
  | .rw => .ground             --  5 R/W read/write         - GND
  | .en => .esp 21             --  6 En Enable Signal       - 21
  | .db0 => .unused            --  7 DB0 Data Bit 0         - unused
  | .db1 => .unused            --  8 DB1 Data Bit 1         - unused
  | .db2 => .unused            --  9 DB2 Data Bit 2         - unused
  | .db3 => .unused            -- 10 DB3 Data Bit 3         - unused
  | .db4 => .esp 5             -- 11 DB4 Data Bit 4         -  5
  | .db5 => .esp 18            -- 12 DB5 Data Bit 5         - 18
  | .db6 => .esp 23            -- 13 DB6 Data Bit 6         - 23
  | .db7 => .esp 19            -- 14 DB7 Data Bit 7         - 19
  | .backlightPlus => .optional -- 15 +5V backlight optional
  | .backlightGnd => .optional  -- 16 GND backlight optional

/-- The ESP32 pin an LCD pin is wired to, when it is wired to one. -/
def Conn.espPin : Conn → Option Int
  | .esp p => some p
  | _ => none

/-- The LCD pins that the table wires to an ESP32 pin. -/
def wiredPins : List LcdPin :=
  LcdPin.all.filter (fun p => (wiring p).espPin.isSome)

/-! ## Glyph tables -/

/-- C++ aggregate initialisation of `byte name[n] = { ... }`: the listed
initialisers fill the array from index 0 and the remaining elements are
zero. -/
def byteArray (n : Nat) (init : List Nat) : List Nat :=
  init ++ List.replicate (n - init.length) 0

/-- Glyph table: `byte flat[8]`. -/
def flat : List Nat := byteArray 8 [
  0b00000,
  0b00100,
  0b00010,
  0b11111,
  0b00010,
  0b00100,
  0b00000]

/-- Glyph table: `byte fourtyFiveDown[8]`. -/
def fourtyFiveDown : List Nat := byteArray 8 [
  0b00000,
  0b10000,
  0b01001,
  0b00101,
  0b00011,
  0b01111,
  0b00000]

/-- Glyph table: `byte singleDown[8]`. -/
def singleDown : List Nat := byteArray 8 [
  0b00100,
  0b00100,
  0b00100,
  0b00100,
  0b10101,
  0b01110,
  0b00100]

/-- Glyph table: `byte doubleDown[8]`. -/
def doubleDown : List Nat := byteArray 8 [
  0b01010,
  0b01010,
  0b01010,
  0b01010,
  0b10001,
  0b01010,
  0b00100]

/-- Glyph table: `byte fourtyFiveUp[8]`. -/
def fourtyFiveUp : List Nat := byteArray 8 [
  0b00000,
  0b01111,
  0b00011,
  0b00101,
  0b01001,
  0b10000,
  0b00000]

/-- Glyph table: `byte singleUp[8]`. -/
def singleUp : List Nat := byteArray 8 [
  0b00100,
  0b01110,
  0b10101,
  0b00100,
  0b00100,
  0b00100,
  0b00100]

/-- Glyph table: `byte doubleUp[8]`. -/
def doubleUp : List Nat := byteArray 8 [
  0b00100,
  0b01010,
  0b10001,
  0b01010,
  0b01010,
  0b01010,
  0b01010]

/-- The seven glyph tables in the order `initialize_LCD` registers them. -/
def glyphs : List (List Nat) :=
  [flat, fourtyFiveDown, singleDown, doubleDown, fourtyFiveUp, singleUp, doubleUp]

/-! ## Peripheral calls and the hardware state -/

/-- A call into one of the libraries `initialize_LCD` uses, with its
arguments as written at the call site. -/
inductive Call where
  | println (text : String)
  | ledcSetup (channel freq bits : Int)
  | ledcAttachPin (pin channel : Int)
  | ledcWrite (channel duty : Int)
  | createChar (location : Nat) (charmap : List Nat)
  | begin (cols rows : Nat)
  deriving DecidableEq, Repr

/-- Calls to the serial port (the logging channel). -/
def Call.isSerial : Call → Bool
  | .println _ => true
  | _ => false

/-- Calls to the PWM (`ledc`) peripheral. -/
def Call.isPwm : Call → Bool
  | .ledcSetup _ _ _ => true
  | .ledcAttachPin _ _ => true
  | .ledcWrite _ _ => true
  | _ => false

/-- Calls that load a glyph. -/
def Call.isCreateChar : Call → Bool
  | .createChar _ _ => true
  | _ => false

/-- Calls that initialise the display controller. -/
def Call.isBegin : Call → Bool
  | .begin _ _ => true
  | _ => false

/-- The hardware `initialize_LCD` acts on.

* `serial`: the characters written to the serial port so far;
* `pwmFreq`, `pwmBits`, `pwmDuty`: per PWM channel, the configured frequency,
  bit resolution and duty;
* `pinChannel`: per pin, the PWM channel attached to it, if any;
* `cgram`: the controller's glyph memory, 64 bytes addressed 0..63, slot `i`
  occupying addresses `8*i .. 8*i+7`;
* `cols`, `rows`: the geometry the controller was initialised with;
* `trace`: the calls issued so far, oldest first. -/
structure Display where
  serial : String
  pwmFreq : Int → Int
  pwmBits : Int → Int
  pwmDuty : Int → Int
  pinChannel : Int → Option Int
  cgram : Nat → Nat
  cols : Nat
  rows : Nat
  trace : List Call

/-- A display on which nothing has been done yet: empty serial output, all
registers and glyph memory zero, no pin attached, empty trace. -/
def Display.blank : Display where
  serial := ""
  pwmFreq := fun _ => 0
  pwmBits := fun _ => 0
  pwmDuty := fun _ => 0
  pinChannel := fun _ => none
  cgram := fun _ => 0
  cols := 0
  rows := 0
  trace := []

/-- A display whose glyph memory holds `0xFF` everywhere and whose other
parts are already in use. -/
def Display.dirty : Display where
  serial := "boot"
  pwmFreq := fun _ => 5000
  pwmBits := fun _ => 10
  pwmDuty := fun _ => 1023
  pinChannel := fun p => some (p % 16)
  cgram := fun _ => 255
  cols := 20
  rows := 4
  trace := [Call.begin 20 4]

/-- Arduino `Serial.println(text)`: writes the text followed by CR LF.
`Serial.println()` is `Serial_println ""`. -/
def Serial_println (text : String) (s : Display) : Display :=
  { s with serial := s.serial ++ text ++ "\r\n"
           trace := s.trace ++ [Call.println text] }

/-- ESP32 `ledcSetup(channel, freq, resolution_bits)`: configures the
channel's frequency and bit resolution. -/
def ledcSetup (channel freq bits : Int) (s : Display) : Display :=
  { s with pwmFreq := Function.update s.pwmFreq channel freq
           pwmBits := Function.update s.pwmBits channel bits
           trace := s.trace ++ [Call.ledcSetup channel freq bits] }

/-- ESP32 `ledcAttachPin(pin, channel)`: binds the pin to the channel. -/
def ledcAttachPin (pin channel : Int) (s : Display) : Display :=
  { s with pinChannel := Function.update s.pinChannel pin (some channel)
           trace := s.trace ++ [Call.ledcAttachPin pin channel] }

/-- ESP32 `ledcWrite(channel, duty)`: sets the channel's duty (for a duty
below the channel's maximum `2^bits - 1`, the only case the header uses). -/
def ledcWrite (channel duty : Int) (s : Display) : Display :=
  { s with pwmDuty := Function.update s.pwmDuty channel duty
           trace := s.trace ++ [Call.ledcWrite channel duty] }

/-- `LiquidCrystal::createChar(location, charmap)`: `location &= 0x7`, the
glyph memory address is set to `location << 3`, and the eight bytes
`charmap[0..7]` are written to consecutive addresses. -/
def createChar (location : Nat) (charmap : List Nat) (s : Display) : Display :=
  { s with cgram := fun a =>
             if a / 8 = location % 8 then charmap.getD (a % 8) 0 else s.cgram a
           trace := s.trace ++ [Call.createChar location charmap] }

/-- `LiquidCrystal::begin(cols, rows)`: initialises the controller for the
given geometry; the glyph memory is not touched. -/
def lcd_begin (cols rows : Nat) (s : Display) : Display :=
  { s with cols := cols
           rows := rows
           trace := s.trace ++ [Call.begin cols rows] }

/-- The procedure `initialize_LCD` of `lcd_16x2.h`, statement by statement. -/
def initialize_LCD (s : Display) : Display :=
  let s := Serial_println "" s
  let s := Serial_println "[DISPLAY] Initializing LCD" s
  -- LCD Contrast
  let s := ledcSetup pwmChannel frequency resolution s
  let s := ledcAttachPin pwmPin pwmChannel s
  let s := ledcWrite pwmChannel contrast s
  -- LCD arrows
  let s := createChar 0 flat s
  let s := createChar 1 fourtyFiveDown s
  let s := createChar 2 singleDown s
  let s := createChar 3 doubleDown s
  let s := createChar 4 fourtyFiveUp s
  let s := createChar 5 singleUp s
  let s := createChar 6 doubleUp s
  lcd_begin 16 2 s

/-! ## Observations -/

/-- The eight bytes of glyph memory slot `i`. -/
def glyphSlot (cgram : Nat → Nat) (i : Nat) : List Nat :=
  (List.range 8).map (fun r => cgram (8 * i + r))

/-- The calls a procedure issues when run from state `s`: what it appends to
the trace. -/
def issued (f : Display → Display) (s : Display) : List Call :=
  (f s).trace.drop s.trace.length

/-- The slot indices of the `createChar` calls of a trace, in order. -/
def createCharLocations (t : List Call) : List Nat :=
  t.filterMap (fun c => match c with
    | .createChar location _ => some location
    | _ => none)

/-- The PWM and LCD calls of a trace (everything but serial output). -/
def peripheralCalls (t : List Call) : List Call :=
  t.filter (fun c => !c.isSerial)

/-- Pixel of a row byte at column `c` (column 0 is the leftmost of the five,
bit 4 of the byte; column 4 the rightmost, bit 0). -/
def pixel (row : Nat) (c : Nat) : Bool :=
  row.testBit (4 - c)

/-- Number of pixels set in the five columns of a row byte. -/
def pixelCount (row : Nat) : Nat :=
  ((List.range 5).filter (fun c => pixel row c)).length

/-- The lit columns of a row byte, left to right. -/
def litColumns (row : Nat) : List Nat :=
  (List.range 5).filter (fun c => pixel row c)

/-- The rows 0..6 of a glyph: its seven declared rows. -/
def declaredRows (g : List Nat) : List Nat :=
  g.take 7

/-- A downward-pointing V with its top at row `r`: a row lighting the two
outer columns, then a row lighting columns 1 and 3, then a row lighting the
single centre column. -/
def downChevronAt (g : List Nat) (r : Nat) : Bool :=
  litColumns (g.getD r 0) = [0, 4] &&
  litColumns (g.getD (r + 1) 0) = [1, 3] &&
  litColumns (g.getD (r + 2) 0) = [2]

/-- The rows of a glyph at which a downward-pointing V starts. -/
def chevronStarts (g : List Nat) : List Nat :=
  (List.range g.length).filter (downChevronAt g)

/-- The rows of a glyph that light the single centre pixel: the tips a
downward-pointing V can end in. -/
def centreTips (g : List Nat) : List Nat :=
  (List.range g.length).filter (fun r => litColumns (g.getD r 0) = [2])

/-! ## Lemmas on `initialize_LCD` -/

/-- The trace after `initialize_LCD` is the trace before it followed by the
thirteen calls of the procedure. -/
theorem initialize_LCD_trace (s : Display) :
    (initialize_LCD s).trace = s.trace ++
      [Call.println "", Call.println "[DISPLAY] Initializing LCD",
       Call.ledcSetup 0 1000 8, Call.ledcAttachPin 16 0, Call.ledcWrite 0 75,
       Call.createChar 0 flat, Call.createChar 1 fourtyFiveDown,
       Call.createChar 2 singleDown, Call.createChar 3 doubleDown,
       Call.createChar 4 fourtyFiveUp, Call.createChar 5 singleUp,
       Call.createChar 6 doubleUp, Call.begin 16 2] := by
  simp [initialize_LCD, Serial_println, ledcSetup, ledcAttachPin, ledcWrite, createChar,
    lcd_begin, pwmChannel, frequency, resolution, pwmPin, contrast]

/-- The calls `initialize_LCD` issues, from any state. -/
theorem issued_initialize_LCD (s : Display) :
    issued initialize_LCD s =
      [Call.println "", Call.println "[DISPLAY] Initializing LCD",
       Call.ledcSetup 0 1000 8, Call.ledcAttachPin 16 0, Call.ledcWrite 0 75,
       Call.createChar 0 flat, Call.createChar 1 fourtyFiveDown,
       Call.createChar 2 singleDown, Call.createChar 3 doubleDown,
       Call.createChar 4 fourtyFiveUp, Call.createChar 5 singleUp,
       Call.createChar 6 doubleUp, Call.begin 16 2] := by
  simp [issued, initialize_LCD_trace]

/-- The glyph memory after `initialize_LCD`, address by address. -/
theorem initialize_LCD_cgram (s : Display) (a : Nat) :
    (initialize_LCD s).cgram a =
      if a / 8 = 6 then doubleUp.getD (a % 8) 0
      else if a / 8 = 5 then singleUp.getD (a % 8) 0
      else if a / 8 = 4 then fourtyFiveUp.getD (a % 8) 0
      else if a / 8 = 3 then doubleDown.getD (a % 8) 0
      else if a / 8 = 2 then singleDown.getD (a % 8) 0
      else if a / 8 = 1 then fourtyFiveDown.getD (a % 8) 0
      else if a / 8 = 0 then flat.getD (a % 8) 0
      else s.cgram a := by
  rfl

/-- Addresses from 56 on (slot 7 and beyond) keep their content. -/
theorem initialize_LCD_cgram_high (s : Display) (a : Nat) :
    (initialize_LCD s).cgram (56 + a) = s.cgram (56 + a) := by
  rw [initialize_LCD_cgram]
  have h : (56 + a) / 8 = 7 + a / 8 := by omega
  rw [h]
  split_ifs <;> first | rfl | omega

/-- What `initialize_LCD` appends to the serial output. -/
theorem initialize_LCD_serial (s : Display) :
    (initialize_LCD s).serial = s.serial ++ "\r\n[DISPLAY] Initializing LCD\r\n" := by
  simp [initialize_LCD, Serial_println, ledcSetup, ledcAttachPin, ledcWrite, createChar,
    lcd_begin, String.append_assoc]

/-! ## The call sequence -/

/-- C1: from any state, the PWM and LCD calls `initialize_LCD` issues are, in
this order and with these arguments, `ledcSetup(0, 1000, 8)`,
`ledcAttachPin(16, 0)`, `ledcWrite(0, 75)`, the seven `createChar` calls and
`lcd.begin(16, 2)`, the arguments being the constants `pwmChannel`,
`frequency`, `resolution`, `pwmPin` and `contrast`; `begin(16, 2)` is the last
call issued; and in the whole sequence no PWM call comes after a `createChar`
call and no PWM or `createChar` call comes after `begin`. -/
theorem initialize_LCD_call_order (s : Display) :
    peripheralCalls (issued initialize_LCD s) =
      [Call.ledcSetup 0 1000 8, Call.ledcAttachPin 16 0, Call.ledcWrite 0 75,
       Call.createChar 0 flat, Call.createChar 1 fourtyFiveDown,
       Call.createChar 2 singleDown, Call.createChar 3 doubleDown,
       Call.createChar 4 fourtyFiveUp, Call.createChar 5 singleUp,
       Call.createChar 6 doubleUp, Call.begin 16 2] ∧
    (peripheralCalls (issued initialize_LCD s)).take 3 =
      [Call.ledcSetup pwmChannel frequency resolution,
       Call.ledcAttachPin pwmPin pwmChannel, Call.ledcWrite pwmChannel contrast] ∧
    (issued initialize_LCD s).getLast? = some (Call.begin 16 2) ∧
    (issued initialize_LCD s).Pairwise (fun a b =>
      ¬ (a.isCreateChar = true ∧ b.isPwm = true) ∧
      ¬ (a.isBegin = true ∧ (b.isPwm = true ∨ b.isCreateChar = true))) ∧
    ((issued initialize_LCD s).filter Call.isPwm).length = 3 ∧
    ((issued initialize_LCD s).filter Call.isCreateChar).length = 7 ∧
    (issued initialize_LCD s).filter Call.isBegin = [Call.begin 16 2] := by
  rw [issued_initialize_LCD]
  refine ⟨by decide, by decide, by decide, by decide, by decide, by decide, by decide⟩

/-! ## Glyph memory -/

/-- C2: for every initial state, after `initialize_LCD` glyph memory slot `i`
holds, for each `i` in 0..6, the table of the `i`-th glyph in the order flat,
fourtyFiveDown, singleDown, doubleDown, fourtyFiveUp, singleUp, doubleUp. -/
theorem initialize_LCD_glyph_memory (s : Display) :
    glyphSlot (initialize_LCD s).cgram 0 = flat ∧
    glyphSlot (initialize_LCD s).cgram 1 = fourtyFiveDown ∧
    glyphSlot (initialize_LCD s).cgram 2 = singleDown ∧
    glyphSlot (initialize_LCD s).cgram 3 = doubleDown ∧
    glyphSlot (initialize_LCD s).cgram 4 = fourtyFiveUp ∧
    glyphSlot (initialize_LCD s).cgram 5 = singleUp ∧
    glyphSlot (initialize_LCD s).cgram 6 = doubleUp ∧
    (List.range 7).map (glyphSlot (initialize_LCD s).cgram) = glyphs :=
  ⟨rfl, rfl, rfl, rfl, rfl, rfl, rfl, rfl⟩

/-- C3: the slot indices `initialize_LCD` passes to `createChar` are 0, 1, ...,
6: each is passed exactly once, an index is passed exactly when it is below 7,
every index is below 8, and every glyph memory address from 56 on, so all of
slot 7, keeps the content it had before the call. -/
theorem initialize_LCD_slot_indices (s : Display) :
    createCharLocations (issued initialize_LCD s) = [0, 1, 2, 3, 4, 5, 6] ∧
    (createCharLocations (issued initialize_LCD s)).Nodup ∧
    (∀ k : Fin 7, (createCharLocations (issued initialize_LCD s)).count k.val = 1) ∧
    (∀ n : Nat, n ∈ createCharLocations (issued initialize_LCD s) ↔ n < 7) ∧
    (createCharLocations (issued initialize_LCD s)).all (fun n => decide (n < 8)) = true ∧
    (∀ a : Nat, (initialize_LCD s).cgram (56 + a) = s.cgram (56 + a)) ∧
    glyphSlot (initialize_LCD s).cgram 7 = glyphSlot s.cgram 7 := by
  have h : createCharLocations (issued initialize_LCD s) = [0, 1, 2, 3, 4, 5, 6] := by
    rw [issued_initialize_LCD]; rfl
  rw [h]
  refine ⟨rfl, by decide, by decide, ?_, by decide, initialize_LCD_cgram_high s, rfl⟩
  intro n
  simp only [List.mem_cons, List.mem_singleton, List.not_mem_nil, or_false]
  omega

/-- C4, as the spec states it, fails: it is not the case that every glyph
table is 7 bytes long with all bytes in 0..31, because `flat` is declared
`byte flat[8]` and is 8 bytes long. -/
theorem glyph_tables_not_seven_bytes :
    flat.length = 8 ∧
    ¬ (∀ g ∈ glyphs, g.length = 7 ∧ ∀ b ∈ g, b ≤ 31) := by
  refine ⟨by decide, ?_⟩
  intro h
  have h1 := (h flat (by simp [glyphs])).1
  exact absurd h1 (by decide)

/-- C4, amended: each of the seven glyph tables is 8 bytes long, its rows 0..6
being the seven declared rows and its last byte zero, and every byte of it is
in 0..31. -/
theorem glyph_tables_eight_bytes (g : List Nat) (hg : g ∈ glyphs) :
    g.length = 8 ∧ (declaredRows g).length = 7 ∧ g = declaredRows g ++ [0] ∧
    ∀ b ∈ g, b ≤ 31 := by
  simp only [glyphs, List.mem_cons, List.mem_singleton, List.not_mem_nil, or_false] at hg
  rcases hg with h | h | h | h | h | h | h <;> subst h <;> decide

/-- Witness for C4 (amended): at the table `doubleDown`. -/
theorem glyph_tables_eight_bytes_witness :
    doubleDown ∈ glyphs ∧
    (doubleDown.length = 8 ∧ (declaredRows doubleDown).length = 7 ∧
      doubleDown = declaredRows doubleDown ++ [0] ∧ ∀ b ∈ doubleDown, b ≤ 31) :=
  ⟨by decide, glyph_tables_eight_bytes doubleDown (by decide)⟩

/-! ## Contrast -/

/-- C5: the PWM calls of `initialize_LCD` are `ledcSetup`, `ledcAttachPin` and
`ledcWrite` on the one channel `pwmChannel`; the duty written is the constant
`contrast`, which is 75 (in both headers) and lies in 0..255, and 255 is
`2^resolution - 1` for the resolution 8 that `ledcSetup` configures; the
channel is 0, inside 0..15; afterwards the channel has resolution 8 and duty
75 and the contrast pin is attached to it. -/
theorem initialize_LCD_contrast_duty (s : Display) :
    (issued initialize_LCD s).filter Call.isPwm =
      [Call.ledcSetup pwmChannel frequency resolution,
       Call.ledcAttachPin pwmPin pwmChannel, Call.ledcWrite pwmChannel contrast] ∧
    contrast = 75 ∧ secrets_template.contrast = contrast ∧
    0 ≤ contrast ∧ contrast ≤ 255 ∧
    resolution = 8 ∧ (2 : Int) ^ resolution.toNat - 1 = 255 ∧
    pwmChannel = 0 ∧ 0 ≤ pwmChannel ∧ pwmChannel ≤ 15 ∧
    (initialize_LCD s).pwmDuty pwmChannel = contrast ∧
    (initialize_LCD s).pwmBits pwmChannel = resolution ∧
    (initialize_LCD s).pwmFreq pwmChannel = frequency ∧
    (initialize_LCD s).pinChannel pwmPin = some pwmChannel := by
  rw [issued_initialize_LCD]
  refine ⟨by decide, by decide, by decide, by decide, by decide, by decide, by decide,
    by decide, by decide, by decide, ?_, ?_, ?_, ?_⟩ <;>
  simp [initialize_LCD, Serial_println, ledcSetup, ledcAttachPin, ledcWrite, createChar,
    lcd_begin]

/-! ## Running the procedure twice -/

/-- C6: for every initial state, a second `initialize_LCD` leaves the glyph
memory, the PWM duty, frequency and resolution, the pin attachment and the
geometry as the first call left them; it issues the same thirteen calls as the
first, and the calls issued are the same from every state. -/
theorem initialize_LCD_twice (s : Display) :
    (initialize_LCD (initialize_LCD s)).cgram = (initialize_LCD s).cgram ∧
    (initialize_LCD (initialize_LCD s)).pwmDuty = (initialize_LCD s).pwmDuty ∧
    (initialize_LCD (initialize_LCD s)).pwmFreq = (initialize_LCD s).pwmFreq ∧
    (initialize_LCD (initialize_LCD s)).pwmBits = (initialize_LCD s).pwmBits ∧
    (initialize_LCD (initialize_LCD s)).pinChannel = (initialize_LCD s).pinChannel ∧
    (initialize_LCD (initialize_LCD s)).cols = (initialize_LCD s).cols ∧
    (initialize_LCD (initialize_LCD s)).rows = (initialize_LCD s).rows ∧
    (initialize_LCD s).cols = 16 ∧ (initialize_LCD s).rows = 2 ∧
    issued initialize_LCD (initialize_LCD s) = issued initialize_LCD s ∧
    (issued initialize_LCD (initialize_LCD s)).length = 13 ∧
    (initialize_LCD (initialize_LCD s)).trace =
      s.trace ++ issued initialize_LCD s ++ issued initialize_LCD s ∧
    (∀ t : Display, issued initialize_LCD t = issued initialize_LCD s) := by
  refine ⟨?_, ?_, ?_, ?_, ?_, rfl, rfl, rfl, rfl, ?_, ?_, ?_, ?_⟩
  · funext a
    simp only [initialize_LCD_cgram]
    split_ifs <;> rfl
  · simp [initialize_LCD, Serial_println, ledcSetup, ledcAttachPin, ledcWrite, createChar,
      lcd_begin]
  · simp [initialize_LCD, Serial_println, ledcSetup, ledcAttachPin, ledcWrite, createChar,
      lcd_begin]
  · simp [initialize_LCD, Serial_println, ledcSetup, ledcAttachPin, ledcWrite, createChar,
      lcd_begin]
  · simp [initialize_LCD, Serial_println, ledcSetup, ledcAttachPin, ledcWrite, createChar,
      lcd_begin]
  · rw [issued_initialize_LCD, issued_initialize_LCD]
  · rw [issued_initialize_LCD]; rfl
  · rw [initialize_LCD_trace, initialize_LCD_trace, issued_initialize_LCD]
  · intro t
    rw [issued_initialize_LCD, issued_initialize_LCD]

/-! ## Wiring -/

/-- C7: the driver object is built from the pins (22, 21, 5, 18, 23, 19) in
the order rs, enable, d4..d7, and the contrast PWM is attached to pin 16; the
wiring table gives the same pins for RS, En, DB4..DB7 and Vo; the table wires
exactly these seven LCD pins to the ESP32 (six LCD wires and the contrast
line); and the seven pin numbers are pairwise distinct. -/
theorem lcd_pins_match_wiring (s : Display) :
    lcd = LiquidCrystal.mk 22 21 5 18 23 19 ∧
    lcd = LiquidCrystal.mk rs en d4 d5 d6 d7 ∧
    pwmPin = 16 ∧
    (issued initialize_LCD s).filter
        (fun c => match c with
          | .ledcAttachPin _ _ => true
          | _ => false) = [Call.ledcAttachPin pwmPin pwmChannel] ∧
    (initialize_LCD s).pinChannel 16 = some pwmChannel ∧
    wiring LcdPin.rs = Conn.esp lcd.rs_pin ∧
    wiring LcdPin.en = Conn.esp lcd.enable_pin ∧
    wiring LcdPin.db4 = Conn.esp lcd.data0 ∧
    wiring LcdPin.db5 = Conn.esp lcd.data1 ∧
    wiring LcdPin.db6 = Conn.esp lcd.data2 ∧
    wiring LcdPin.db7 = Conn.esp lcd.data3 ∧
    wiring LcdPin.vo = Conn.esp pwmPin ∧
    wiredPins =
      [LcdPin.vo, LcdPin.rs, LcdPin.en, LcdPin.db4, LcdPin.db5, LcdPin.db6, LcdPin.db7] ∧
    (wiredPins.filter (fun p => decide (p ≠ LcdPin.vo))).length = 6 ∧
    [lcd.rs_pin, lcd.enable_pin, lcd.data0, lcd.data1, lcd.data2, lcd.data3, pwmPin].Nodup := by
  rw [issued_initialize_LCD]
  refine ⟨by decide, rfl, by decide, by decide, ?_, by decide, by decide, by decide,
    by decide, by decide, by decide, by decide, by decide, by decide, by decide⟩
  simp [initialize_LCD, Serial_println, ledcSetup, ledcAttachPin, ledcWrite, createChar,
    lcd_begin, pwmPin]

/-! ## Shape of the glyphs -/

/-- C8, as the spec states it, fails for character code 3: after
`initialize_LCD`, run on the display `Display.dirty`, the glyph in slot 3
(double-down) has a downward-pointing V
starting at row 4 only, and a single row lighting only the centre pixel (row
6), so it does not contain two downward-pointing V shapes. -/
theorem doubleDown_not_two_chevrons :
    chevronStarts (glyphSlot (initialize_LCD Display.dirty).cgram 3) = [4] ∧
    centreTips (glyphSlot (initialize_LCD Display.dirty).cgram 3) = [6] ∧
    ¬ (2 ≤ (chevronStarts (glyphSlot (initialize_LCD Display.dirty).cgram 3)).length) ∧
    ¬ (2 ≤ (centreTips (glyphSlot (initialize_LCD Display.dirty).cgram 3)).length) := by
  have h : glyphSlot (initialize_LCD Display.dirty).cgram 3 = doubleDown := rfl
  rw [h]
  decide

/-- C8, amended: after `initialize_LCD`, from any state, the glyph in slot 0
(flat) has all five pixels of row 3 set, no other row has more than one pixel
set, rows `3 - k` and `3 + k` are equal for k = 1, 2, 3, and the single pixel
of the rows next to the middle is in column 3, that of the rows two away in
column 2 (an arrowhead pointing right); and the glyph in slot 3 (double-down)
lights columns 1 and 3 in each of rows 0..3 (two vertical strokes) and has one
downward-pointing V on rows 4..6: columns 0 and 4, then 1 and 3, then the
centre pixel. -/
theorem flat_and_doubleDown_shapes (s : Display) :
    (glyphSlot (initialize_LCD s).cgram 0).map litColumns =
      [[], [2], [3], [0, 1, 2, 3, 4], [3], [2], [], []] ∧
    (glyphSlot (initialize_LCD s).cgram 0).map pixelCount = [0, 1, 1, 5, 1, 1, 0, 0] ∧
    (∀ k : Fin 4, (glyphSlot (initialize_LCD s).cgram 0).getD (3 - k.val) 0 =
      (glyphSlot (initialize_LCD s).cgram 0).getD (3 + k.val) 0) ∧
    (glyphSlot (initialize_LCD s).cgram 3).map litColumns =
      [[1, 3], [1, 3], [1, 3], [1, 3], [0, 4], [1, 3], [2], []] ∧
    chevronStarts (glyphSlot (initialize_LCD s).cgram 3) = [4] := by
  have h0 : glyphSlot (initialize_LCD s).cgram 0 = flat := rfl
  have h3 : glyphSlot (initialize_LCD s).cgram 3 = doubleDown := rfl
  rw [h0, h3]
  decide

/-! ## Serial output -/

/-- C9, as the spec states it, fails: from the blank display `initialize_LCD`
makes two writes to the serial port, not one; what it writes is an empty line
followed by the diagnostic line, which differs from the diagnostic line
alone. -/
theorem initialize_LCD_logs_two_lines :
    ((issued initialize_LCD Display.blank).filter Call.isSerial).length = 2 ∧
    ((issued initialize_LCD Display.blank).filter Call.isSerial).length ≠ 1 ∧
    (initialize_LCD Display.blank).serial = "\r\n[DISPLAY] Initializing LCD\r\n" ∧
    (initialize_LCD Display.blank).serial ≠ "[DISPLAY] Initializing LCD\r\n" := by
  rw [issued_initialize_LCD]
  have h : (initialize_LCD Display.blank).serial = "\r\n[DISPLAY] Initializing LCD\r\n" := by
    rw [initialize_LCD_serial]; decide
  rw [h]
  decide

/-- C9, amended: from any state, `initialize_LCD` makes exactly two writes to
the serial port, `println()` and then `println("[DISPLAY] Initializing LCD")`,
so it appends an empty line and the diagnostic line to the serial output;
these are the first two calls it issues, and none of the calls after them is a
serial call. -/
theorem initialize_LCD_log (s : Display) :
    (issued initialize_LCD s).filter Call.isSerial =
      [Call.println "", Call.println "[DISPLAY] Initializing LCD"] ∧
    (issued initialize_LCD s).take 2 =
      [Call.println "", Call.println "[DISPLAY] Initializing LCD"] ∧
    ((issued initialize_LCD s).drop 2).all (fun c => !c.isSerial) = true ∧
    ((issued initialize_LCD s).drop 2).length = 11 ∧
    (initialize_LCD s).serial = s.serial ++ "\r\n[DISPLAY] Initializing LCD\r\n" := by
  rw [issued_initialize_LCD]
  exact ⟨by decide, by decide, by decide, by decide, initialize_LCD_serial s⟩

/-! ## Mirror symmetry of the glyphs -/

/-- C10: on the seven declared rows, `flat` is a palindrome and reversing the
rows of `fourtyFiveDown`, `singleDown`, `doubleDown` gives `fourtyFiveUp`,
`singleUp`, `doubleUp` and back; after `initialize_LCD`, from any state, row
reversal fixes slot 0 and swaps slot `k` with slot `k + 3` for k = 1, 2, 3;
and reversing twice gives back every glyph. -/
theorem glyph_mirror_symmetry (s : Display) :
    (declaredRows flat).reverse = declaredRows flat ∧
    (declaredRows fourtyFiveDown).reverse = declaredRows fourtyFiveUp ∧
    (declaredRows singleDown).reverse = declaredRows singleUp ∧
    (declaredRows doubleDown).reverse = declaredRows doubleUp ∧
    (declaredRows fourtyFiveUp).reverse = declaredRows fourtyFiveDown ∧
    (declaredRows singleUp).reverse = declaredRows singleDown ∧
    (declaredRows doubleUp).reverse = declaredRows doubleDown ∧
    (declaredRows (glyphSlot (initialize_LCD s).cgram 0)).reverse =
      declaredRows (glyphSlot (initialize_LCD s).cgram 0) ∧
    (∀ k : Fin 3,
      (declaredRows (glyphSlot (initialize_LCD s).cgram (k.val + 1))).reverse =
        declaredRows (glyphSlot (initialize_LCD s).cgram (k.val + 4)) ∧
      (declaredRows (glyphSlot (initialize_LCD s).cgram (k.val + 4))).reverse =
        declaredRows (glyphSlot (initialize_LCD s).cgram (k.val + 1))) ∧
    (glyphs.map (fun g => (declaredRows g).reverse)) =
      [flat, fourtyFiveUp, singleUp, doubleUp, fourtyFiveDown, singleDown,
        doubleDown].map declaredRows ∧
    (∀ i : Fin 7, ((declaredRows (glyphs.getD i.val [])).reverse).reverse =
      declaredRows (glyphs.getD i.val [])) := by
  refine ⟨by decide, by decide, by decide, by decide, by decide, by decide, by decide,
    rfl, ?_, by decide, by decide⟩
  have h1 : glyphSlot (initialize_LCD s).cgram 1 = fourtyFiveDown := rfl
  have h2 : glyphSlot (initialize_LCD s).cgram 2 = singleDown := rfl
  have h3 : glyphSlot (initialize_LCD s).cgram 3 = doubleDown := rfl
  have h4 : glyphSlot (initialize_LCD s).cgram 4 = fourtyFiveUp := rfl
  have h5 : glyphSlot (initialize_LCD s).cgram 5 = singleUp := rfl
  have h6 : glyphSlot (initialize_LCD s).cgram 6 = doubleUp := rfl
  intro k
  match k with
  | ⟨0, _⟩ => simp only [Nat.zero_add, h1, h4]; decide
  | ⟨1, _⟩ => simp only [Nat.reduceAdd, h2, h5]; decide
  | ⟨2, _⟩ => simp only [Nat.reduceAdd, h3, h6]; decide

end GluciClock
